import Mathlib

/-!
Verification of the action-based input mapping layer and gameplay components
of the test-game repository. The input layer itself (Device Sampler, Binding
Resolver, Action resolution, Context Stack, Query Facade) is provided by the
external engine and is modelled here from its specification; the authored
contexts, the player controller, and the gameplay components (health, score,
collectibles, scale zones) are embedded from the repository sources
(src/Player.ts, src/Collectible.ts, src/main.ts).
-/

namespace TestGame

/-- A 2D vector with real components, standing in for Babylon's Vector2 and
for the resolved value of an axis2d action. -/
structure Vec2 where
  x : ℝ
  y : ℝ

/-- The zero 2D vector. -/
def Vec2.zero : Vec2 := ⟨0, 0⟩

/-- Euclidean magnitude of a 2D vector. -/
noncomputable def Vec2.mag (v : Vec2) : ℝ := Real.sqrt (v.x ^ 2 + v.y ^ 2)

/-- Componentwise scalar multiplication. -/
def Vec2.scale (c : ℝ) (v : Vec2) : Vec2 := ⟨c * v.x, c * v.y⟩

/-- Modelled from the spec: a device source (section 3), one raw input channel
of the external edenmark input layer, whose implementation is not part of this
repository's sources. -/
inductive DeviceSource where
  | keyboard (code : String)
  | mouseButton (button : Nat)
  | mouseAxis (index : Nat)
  | gamepadButton (index : Nat)
  | gamepadAxis (index : Nat)
deriving DecidableEq

/-- Modelled from the spec: the Device Sampler's per-frame snapshot of raw
device state (section 4.1), external to this repository's sources. -/
structure Snapshot where
  keyDown : String → Bool
  mouseButtonDown : Nat → Bool
  mouseDelta : Vec2
  mouseAxisValue : Nat → ℝ
  gamepadButtonDown : Nat → Bool
  gamepadAxis : Nat → ℝ

/-- Modelled from the spec: boolean down-state of a button-like source in a
snapshot (section 4.1). -/
def Snapshot.sourceDown (s : Snapshot) : DeviceSource → Bool
  | .keyboard code => s.keyDown code
  | .mouseButton b => s.mouseButtonDown b
  | .mouseAxis _ => false
  | .gamepadButton i => s.gamepadButtonDown i
  | .gamepadAxis _ => false

/-- Modelled from the spec: analog value of an axis source in a snapshot
(section 4.1). -/
def Snapshot.axisValue (s : Snapshot) : DeviceSource → ℝ
  | .mouseAxis i => s.mouseAxisValue i
  | .gamepadAxis i => s.gamepadAxis i
  | .keyboard _ => 0
  | .mouseButton _ => 0
  | .gamepadButton _ => 0

/-- Modelled from the spec: the per-binding modifier set (section 3), with
deadzone and sensitivity defaulting to their no-op values (section 4.2). -/
structure Modifiers where
  deadzone : ℝ := 0
  sensitivity : ℝ := 1
  invertY : Bool := false
  normalize2D : Bool := false

/-- Modelled from the spec: the three binding kinds (sections 3 and 9) of the
external input layer. -/
inductive Binding where
  | button (sources : List DeviceSource)
  | discreteAxis2d (xPositive xNegative yPositive yNegative : DeviceSource)
      (modifiers : Modifiers)
  | analogAxis2d (sourceX sourceY : DeviceSource) (modifiers : Modifiers)

/-- Conversion of a pressed state to its contribution of 1 or 0. -/
def boolToReal (b : Bool) : ℝ := if b then 1 else 0

/-- Modelled from the spec: the raw vector of a discrete axis2d binding,
(xPos - xNeg, yPos - yNeg) (section 4.2). -/
def rawDiscrete (xp xn yp yn : DeviceSource) (s : Snapshot) : Vec2 :=
  ⟨boolToReal (s.sourceDown xp) - boolToReal (s.sourceDown xn),
   boolToReal (s.sourceDown yp) - boolToReal (s.sourceDown yn)⟩

/-- Modelled from the spec: resolution of a discrete axis2d binding; when
normalize2D is set and the raw magnitude is positive, the raw vector is
divided by its magnitude (section 4.2). -/
noncomputable def resolveDiscreteAxis2d (xp xn yp yn : DeviceSource)
    (m : Modifiers) (s : Snapshot) : Vec2 :=
  let raw := rawDiscrete xp xn yp yn s
  if m.normalize2D = true ∧ 0 < raw.mag then Vec2.scale (1 / raw.mag) raw else raw

/-- Modelled from the spec: the raw vector of an analog axis2d binding, read
directly from the sampler (section 4.2). -/
def rawAnalog (sx sy : DeviceSource) (s : Snapshot) : Vec2 :=
  ⟨s.axisValue sx, s.axisValue sy⟩

/-- Modelled from the spec: the radial deadzone; magnitudes below the deadzone
map to the zero vector, otherwise the magnitude is rescaled from
[deadzone, 1] to [0, 1] along the same direction (section 4.2). -/
noncomputable def applyDeadzone (dz : ℝ) (v : Vec2) : Vec2 :=
  if v.mag < dz then Vec2.zero
  else Vec2.scale (((v.mag - dz) / (1 - dz)) / v.mag) v

/-- Modelled from the spec: the invertY modifier negates only the y component
(section 4.2). -/
def applyInvertY (b : Bool) (v : Vec2) : Vec2 := if b then ⟨v.x, -v.y⟩ else v

/-- Modelled from the spec: resolution of an analog axis2d binding — deadzone,
then sensitivity as a post-multiply, then invertY last (section 4.2). -/
noncomputable def resolveAnalogAxis2d (sx sy : DeviceSource) (m : Modifiers)
    (s : Snapshot) : Vec2 :=
  applyInvertY m.invertY
    (Vec2.scale m.sensitivity (applyDeadzone m.deadzone (rawAnalog sx sy s)))

/-- The button-like sources of a binding (empty for axis bindings). -/
def Binding.buttonSources : Binding → List DeviceSource
  | .button sources => sources
  | _ => []

/-- Modelled from the spec: a button binding's value is the OR over its
sources of the current down-state (section 4.2). -/
def resolveBindingButton (b : Binding) (s : Snapshot) : Bool :=
  b.buttonSources.any s.sourceDown

/-- Modelled from the spec: the axis2d value of one binding; button bindings
contribute the zero vector (section 4.2). -/
noncomputable def resolveBindingAxis2d (b : Binding) (s : Snapshot) : Vec2 :=
  match b with
  | .button _ => Vec2.zero
  | .discreteAxis2d xp xn yp yn m => resolveDiscreteAxis2d xp xn yp yn m s
  | .analogAxis2d sx sy m => resolveAnalogAxis2d sx sy m s

/-- The value type of an action, mirroring the engine's InputValueType. -/
inductive InputValueType where
  | Button
  | Scalar
  | Axis2D
deriving DecidableEq

/-- An action: a named, typed gameplay signal backed by bindings, mirroring
the engine's InputAction record used by src/Player.ts. -/
structure InputAction where
  name : String
  valueType : InputValueType
  bindings : List Binding

/-- Modelled from the spec: a button action's aggregate value, true if any
binding's value is true (section 4.3). -/
def InputAction.buttonValue (a : InputAction) (s : Snapshot) : Bool :=
  a.bindings.any (fun b => resolveBindingButton b s)

/-- Modelled from the spec: the action-level press edge, evaluated against the
action's own previous-frame aggregate boolean (section 4.3). -/
def InputAction.wasPressed (a : InputAction) (cur prev : Snapshot) : Bool :=
  a.buttonValue cur && !(a.buttonValue prev)

/-- Modelled from the spec: the action-level release edge (section 4.3). -/
def InputAction.wasReleased (a : InputAction) (cur prev : Snapshot) : Bool :=
  !(a.buttonValue cur) && a.buttonValue prev

/-- Modelled from the spec: the first binding whose resolved vector has
non-zero magnitude wins; if all are zero the zero vector results
(section 4.3). -/
noncomputable def firstNonZero : List Vec2 → Vec2
  | [] => Vec2.zero
  | v :: rest => if 0 < v.mag then v else firstNonZero rest

/-- Modelled from the spec: an axis2d action's resolved value over its
bindings in declaration order (section 4.3). -/
noncomputable def InputAction.axis2dValue (a : InputAction) (s : Snapshot) : Vec2 :=
  firstNonZero (a.bindings.map (fun b => resolveBindingAxis2d b s))

/-- An input context: a named, prioritized bundle of actions with a
consumption flag, mirroring the engine's InputContext record used by
src/Player.ts. -/
structure InputContext where
  name : String
  priority : Int
  actions : List InputAction
  consumeInput : Bool

/-- Ordering of contexts by descending priority, used for stack resolution. -/
def ctxGE (a b : InputContext) : Prop := b.priority ≤ a.priority

instance : DecidableRel ctxGE :=
  fun a b => inferInstanceAs (Decidable (b.priority ≤ a.priority))

instance : IsTotal InputContext ctxGE :=
  ⟨fun a b => (le_total b.priority a.priority).imp id id⟩

instance : IsTrans InputContext ctxGE :=
  ⟨fun _ _ _ hab hbc => le_trans hbc hab⟩

/-- Modelled from the spec: the resolution order of the context stack, sorted
by priority descending with ties broken most-recently-enabled first
(sections 3 and 4.4); contexts are inserted in enable order, each before any
context of priority less than or equal to its own. -/
def sortStack (l : List InputContext) : List InputContext :=
  l.foldl (fun acc c => List.orderedInsert ctxGE c acc) []

/-- Modelled from the spec: the contexts that actually resolve this frame —
the stack is walked top to bottom and stops at (and includes) the first
context whose consumeInput flag is set (section 4.4). -/
def resolvedContexts : List InputContext → List InputContext
  | [] => []
  | c :: rest => if c.consumeInput then [c] else c :: resolvedContexts rest

/-- Modelled from the spec: the input system's per-frame state — the enabled
contexts in enable order plus the current and previous snapshots
(sections 2 and 4.4). -/
structure InputSystemState where
  enabled : List InputContext
  cur : Snapshot
  prev : Snapshot

/-- Modelled from the spec: enabling a context already enabled (by name) is a
no-op; otherwise it is appended in enable order (section 3). -/
def enableContext (sys : InputSystemState) (c : InputContext) : InputSystemState :=
  if sys.enabled.any (fun d => d.name == c.name) then sys
  else { sys with enabled := sys.enabled ++ [c] }

/-- Modelled from the spec: disabling removes a context by name; disabling an
absent context is a no-op (section 3). -/
def disableContext (sys : InputSystemState) (name : String) : InputSystemState :=
  { sys with enabled := sys.enabled.filter (fun d => !(d.name == name)) }

/-- Modelled from the spec: facade name lookup — the first action with the
queried name in the highest-priority context among those that resolved this
frame (sections 4.4 and 4.5). -/
def lookupAction (sys : InputSystemState) (name : String) : Option InputAction :=
  (resolvedContexts (sortStack sys.enabled)).findSome?
    (fun c => c.actions.find? (fun a => a.name == name))

/-- Modelled from the spec: the facade's current level state of a button
action; neutral false for unresolved names (section 4.5). -/
def getButton (sys : InputSystemState) (name : String) : Bool :=
  match lookupAction sys name with
  | some a => a.buttonValue sys.cur
  | none => false

/-- Modelled from the spec: the facade's this-frame press edge; neutral false
for unresolved names (section 4.5). -/
def wasButtonPressed (sys : InputSystemState) (name : String) : Bool :=
  match lookupAction sys name with
  | some a => a.wasPressed sys.cur sys.prev
  | none => false

/-- Modelled from the spec: the facade's this-frame release edge; neutral
false for unresolved names (section 4.5). -/
def wasButtonReleased (sys : InputSystemState) (name : String) : Bool :=
  match lookupAction sys name with
  | some a => a.wasReleased sys.cur sys.prev
  | none => false

/-- Modelled from the spec: the facade's axis2d value; neutral zero vector for
unresolved names (section 4.5). -/
noncomputable def getAxis2D (sys : InputSystemState) (name : String) : Vec2 :=
  match lookupAction sys name with
  | some a => a.axis2dValue sys.cur
  | none => Vec2.zero

/-- Modelled from the spec: the facade's raw mouse pixel delta, bypassing the
action and binding layer entirely (section 4.5). -/
def getMouseDelta (sys : InputSystemState) : Vec2 := sys.cur.mouseDelta

/-- The WASD binding of the Move action, from createOnFootContext in
src/Player.ts (lines 234-241). -/
def wasdBinding : Binding :=
  .discreteAxis2d (.keyboard "KeyD") (.keyboard "KeyA")
    (.keyboard "KeyW") (.keyboard "KeyS") { normalize2D := true }

/-- The arrow-key binding of the Move action, from createOnFootContext in
src/Player.ts (lines 243-250). -/
def arrowBinding : Binding :=
  .discreteAxis2d (.keyboard "ArrowRight") (.keyboard "ArrowLeft")
    (.keyboard "ArrowUp") (.keyboard "ArrowDown") { normalize2D := true }

/-- The gamepad left-stick binding of the Move action, from
createOnFootContext in src/Player.ts (lines 252-259). -/
noncomputable def moveGamepadBinding : Binding :=
  .analogAxis2d (.gamepadAxis 0) (.gamepadAxis 1)
    { deadzone := 0.15, invertY := true }

/-- The Move action authored in createOnFootContext (src/Player.ts lines
229-261). -/
noncomputable def moveAction : InputAction :=
  { name := "Move"
    valueType := .Axis2D
    bindings := [wasdBinding, arrowBinding, moveGamepadBinding] }

/-- The Look action authored in createOnFootContext (src/Player.ts lines
264-277). -/
noncomputable def lookAction : InputAction :=
  { name := "Look"
    valueType := .Axis2D
    bindings := [.analogAxis2d (.gamepadAxis 2) (.gamepadAxis 3)
      { deadzone := 0.15, sensitivity := 0.1 }] }

/-- The CameraRotate action authored in createOnFootContext (src/Player.ts
lines 280-291). -/
def cameraRotateAction : InputAction :=
  { name := "CameraRotate"
    valueType := .Button
    bindings := [.button [.mouseButton 2]] }

/-- The Jump action authored in createOnFootContext (src/Player.ts lines
294-306). -/
def jumpAction : InputAction :=
  { name := "Jump"
    valueType := .Button
    bindings := [.button [.keyboard "Space", .gamepadButton 0]] }

/-- The Primary action authored in createOnFootContext (src/Player.ts lines
309-322). -/
def primaryAction : InputAction :=
  { name := "Primary"
    valueType := .Button
    bindings := [.button [.mouseButton 0, .keyboard "KeyE", .gamepadButton 7]] }

/-- The Secondary action authored in createOnFootContext (src/Player.ts lines
325-337). -/
def secondaryAction : InputAction :=
  { name := "Secondary"
    valueType := .Button
    bindings := [.button [.keyboard "KeyQ", .gamepadButton 6]] }

/-- The OnFoot context returned by createOnFootContext (src/Player.ts lines
339-344): priority 0, six actions, consumeInput true. -/
noncomputable def createOnFootContext : InputContext :=
  { name := "OnFoot"
    priority := 0
    actions := [moveAction, lookAction, cameraRotateAction, jumpAction,
      primaryAction, secondaryAction]
    consumeInput := true }

/-- The controller's mouse sensitivity, from TestPlayerController in
src/Player.ts (line 354). -/
noncomputable def mouseSensitivity : ℝ := 0.002

/-- The intent the controller writes into the pawn each frame via
setMoveInput, setLookInput and jump (src/Player.ts lines 392-398). -/
structure PawnIntent where
  move : Vec2
  look : Vec2
  jump : Bool

/-- The per-frame body of TestPlayerController.update (src/Player.ts lines
366-401): move from the Move axis, look from the scaled raw mouse delta while
CameraRotate is held and the delta is non-zero and from the Look gamepad axis
otherwise, jump from the Jump press edge. -/
noncomputable def TestPlayerController.update (sys : InputSystemState) : PawnIntent :=
  let move := getAxis2D sys "Move"
  let cameraRotateHeld := getButton sys "CameraRotate"
  let mouseDelta := getMouseDelta sys
  let gamepadLook := getAxis2D sys "Look"
  let look : Vec2 :=
    if cameraRotateHeld = true ∧ (mouseDelta.x ≠ 0 ∨ mouseDelta.y ≠ 0) then
      ⟨mouseDelta.x * mouseSensitivity, mouseDelta.y * mouseSensitivity⟩
    else gamepadLook
  { move := move, look := look, jump := wasButtonPressed sys "Jump" }

/-- The health-tracking component state, from HealthComponent in src/Player.ts
(lines 32-74); JS numbers are idealized as rationals. -/
structure HealthComponent where
  health : ℚ
  maxHealth : ℚ
deriving DecidableEq

/-- The HealthComponent constructor (src/Player.ts lines 36-40): health starts
at maxHealth. -/
def HealthComponent.init (maxHealth : ℚ) : HealthComponent :=
  ⟨maxHealth, maxHealth⟩

/-- The isDead getter (src/Player.ts lines 50-52). -/
def HealthComponent.isDead (c : HealthComponent) : Bool :=
  decide (c.health ≤ 0)

/-- applyDamage (src/Player.ts lines 54-61): no-op when dead, otherwise
health is clamped below at 0. -/
def HealthComponent.applyDamage (c : HealthComponent) (amount : ℚ) : HealthComponent :=
  if c.isDead then c else { c with health := max 0 (c.health - amount) }

/-- heal (src/Player.ts lines 63-65): health is clamped above at maxHealth. -/
def HealthComponent.heal (c : HealthComponent) (amount : ℚ) : HealthComponent :=
  { c with health := min c.maxHealth (c.health + amount) }

/-- One call made to a HealthComponent: applyDamage or heal with its
amount. -/
inductive HealthOp where
  | damage (amount : ℚ)
  | heal (amount : ℚ)

/-- The amount carried by a health operation. -/
def HealthOp.amount : HealthOp → ℚ
  | .damage a => a
  | .heal a => a

/-- Applying one health operation to a component. -/
def applyHealthOp (c : HealthComponent) : HealthOp → HealthComponent
  | .damage a => c.applyDamage a
  | .heal a => c.heal a

/-- Running a sequence of applyDamage and heal calls in order. -/
def runHealthOps (c : HealthComponent) : List HealthOp → HealthComponent
  | [] => c
  | op :: rest => runHealthOps (applyHealthOp c op) rest

/-- The collectible coin's state, from Collectible in src/Collectible.ts
(lines 7-55); destroyCalls counts invocations of this.destroy(). -/
structure Collectible where
  points : ℚ
  collected : Bool
  destroyCalls : Nat
deriving DecidableEq

/-- The Collectible constructor (src/Collectible.ts lines 14-21): not yet
collected, never destroyed. -/
def Collectible.init (points : ℚ) : Collectible :=
  ⟨points, false, 0⟩

/-- collect (src/Collectible.ts lines 50-54): returns immediately when the
collected flag is already set, otherwise sets it and calls destroy once. -/
def Collectible.collect (c : Collectible) : Collectible :=
  if c.collected then c
  else { c with collected := true, destroyCalls := c.destroyCalls + 1 }

/-- A 3D vector with rational components, standing in for Babylon's Vector3
world scale. -/
structure Vec3 where
  x : ℚ
  y : ℚ
  z : ℚ
deriving DecidableEq

/-- Babylon's Vector3.scale: componentwise multiplication by a scalar, as used
on stored original scales in src/main.ts line 371. -/
def Vec3.scaleBy (v : Vec3) (f : ℚ) : Vec3 :=
  ⟨v.x * f, v.y * f, v.z * f⟩

/-- The world's root-component scales, indexed by actor id; none models an
actor without a root component. -/
def ScaleWorld : Type := Nat → Option Vec3

/-- The ScaleZone state, from src/main.ts (lines 332-345): the scale factor
and the map from scaled actors to their original world scales. -/
structure ScaleZone where
  scaleFactor : ℚ
  scaledActors : List (Nat × Vec3)

/-- Lookup of an actor in the zone's original-scale map. -/
def ScaleZone.lookupScaled (z : ScaleZone) (actor : Nat) : Option Vec3 :=
  (z.scaledActors.find? (fun p => p.1 == actor)).map (fun p => p.2)

/-- ScaleZone.onTriggerEnter (src/main.ts lines 362-374): returns unchanged
when there is no other actor or the actor is already recorded; otherwise, when
the actor has a root component, stores the original world scale and multiplies
the actor's world scale by the factor. -/
def ScaleZone.onTriggerEnter (z : ScaleZone) (w : ScaleWorld)
    (other : Option Nat) : ScaleZone × ScaleWorld :=
  match other with
  | none => (z, w)
  | some actor =>
    if (z.lookupScaled actor).isSome then (z, w)
    else
      match w actor with
      | none => (z, w)
      | some originalScale =>
        ({ z with scaledActors := (actor, originalScale) :: z.scaledActors },
         fun b => if b = actor then some (originalScale.scaleBy z.scaleFactor) else w b)

/-- ScaleZone.onTriggerExit (src/main.ts lines 376-390): when the actor is
recorded, restores the stored original scale if the actor still has a root
component and removes the record; otherwise leaves everything unchanged. -/
def ScaleZone.onTriggerExit (z : ScaleZone) (w : ScaleWorld)
    (other : Option Nat) : ScaleZone × ScaleWorld :=
  match other with
  | none => (z, w)
  | some actor =>
    match z.lookupScaled actor with
    | none => (z, w)
    | some originalScale =>
      let w2 : ScaleWorld :=
        match w actor with
        | none => w
        | some _ => fun b => if b = actor then some originalScale else w b
      ({ z with scaledActors := z.scaledActors.filter (fun p => !(p.1 == actor)) },
       w2)

/-- A snapshot with nothing pressed and all axes at rest, used as a concrete
test frame. -/
def snapNone : Snapshot :=
  { keyDown := fun _ => false
    mouseButtonDown := fun _ => false
    mouseDelta := Vec2.zero
    mouseAxisValue := fun _ => 0
    gamepadButtonDown := fun _ => false
    gamepadAxis := fun _ => 0 }

/-- A concrete frame with only the Space key held. -/
def snapSpace : Snapshot :=
  { snapNone with keyDown := fun c => c == "Space" }

/-- A concrete frame with the Space key and the gamepad A button held at
once (two overlapping sources of the Jump action). -/
def snapSpaceAndPadA : Snapshot :=
  { snapNone with
    keyDown := fun c => c == "Space"
    gamepadButtonDown := fun i => i == 0 }

/-- A concrete frame with exactly KeyD and KeyW held. -/
def snapDW : Snapshot :=
  { snapNone with keyDown := fun c => c == "KeyD" || c == "KeyW" }

/-- A concrete frame with the right mouse button held and a raw mouse delta
of (10, 5) pixels. -/
def snapMouse : Snapshot :=
  { snapNone with
    mouseButtonDown := fun b => b == 2
    mouseDelta := ⟨10, 5⟩ }

/-- A concrete frame with the gamepad right stick at (0.15, 0), a tilt whose
magnitude equals the Look binding's deadzone. -/
noncomputable def snapStick : Snapshot :=
  { snapNone with gamepadAxis := fun i => if i = 2 then 0.15 else 0 }

/-- A concrete frame with the KeyB key held, activating the lower context's
binding in the consumption witness. -/
def snapKeyB : Snapshot :=
  { snapNone with keyDown := fun c => c == "KeyB" }

/-- The single action of the lower-priority witness context, bound to KeyB. -/
def openBagAction : InputAction :=
  { name := "OpenBag"
    valueType := .Button
    bindings := [.button [.keyboard "KeyB"]] }

/-- A concrete lower-priority, non-consuming context used to witness context
consumption, with one action bound to KeyB. -/
def lowInventoryContext : InputContext :=
  { name := "Inventory"
    priority := -10
    actions := [openBagAction]
    consumeInput := false }

/-! Theorems -/

/-- C7: the context returned by createOnFootContext contains exactly six
actions, named Move, Look, CameraRotate, Jump, Primary and Secondary, and
these names are pairwise distinct. -/
theorem c7_action_names_unique :
    createOnFootContext.actions.map InputAction.name =
      ["Move", "Look", "CameraRotate", "Jump", "Primary", "Secondary"]
    ∧ (createOnFootContext.actions.map InputAction.name).Nodup :=
  ⟨rfl, by decide⟩

/-- One applyDamage or heal call with a non-negative amount preserves the
health invariant and never changes maxHealth. -/
theorem applyHealthOp_invariant (c : HealthComponent) (op : HealthOp)
    (h1 : 0 ≤ c.health) (h2 : c.health ≤ c.maxHealth) (ha : 0 ≤ op.amount) :
    0 ≤ (applyHealthOp c op).health
    ∧ (applyHealthOp c op).health ≤ (applyHealthOp c op).maxHealth
    ∧ (applyHealthOp c op).maxHealth = c.maxHealth := by
  cases op with
  | damage a =>
    have ha' : 0 ≤ a := ha
    simp only [applyHealthOp, HealthComponent.applyDamage]
    split
    · exact ⟨h1, h2, rfl⟩
    · refine ⟨le_max_left _ _, ?_, rfl⟩
      have hm : (0 : ℚ) ≤ c.maxHealth := le_trans h1 h2
      have : c.health - a ≤ c.maxHealth := by linarith
      exact max_le hm this
  | heal a =>
    have ha' : 0 ≤ a := ha
    have hm : (0 : ℚ) ≤ c.maxHealth := le_trans h1 h2
    refine ⟨?_, ?_, rfl⟩
    · show 0 ≤ min c.maxHealth (c.health + a)
      exact le_min hm (by linarith)
    · show min c.maxHealth (c.health + a) ≤ c.maxHealth
      exact min_le_left _ _

/-- A sequence of non-negative applyDamage and heal calls preserves the
health invariant. -/
theorem runHealthOps_invariant (ops : List HealthOp) :
    ∀ c : HealthComponent, (∀ op ∈ ops, 0 ≤ op.amount) →
      0 ≤ c.health → c.health ≤ c.maxHealth →
      0 ≤ (runHealthOps c ops).health
      ∧ (runHealthOps c ops).health ≤ (runHealthOps c ops).maxHealth := by
  induction ops with
  | nil => exact fun c _ h1 h2 => ⟨h1, h2⟩
  | cons op rest ih =>
    intro c hops h1 h2
    have hstep := applyHealthOp_invariant c op h1 h2 (hops op (by simp))
    exact ih (applyHealthOp c op) (fun o ho => hops o (by simp [ho]))
      hstep.1 hstep.2.1

/-- C8: for a HealthComponent constructed with non-negative maxHealth and any
sequence of applyDamage and heal calls with non-negative amounts, health stays
within 0 and maxHealth after every call; moreover applyDamage on a dead
component leaves it entirely unchanged. -/
theorem c8_health_invariant (m : ℚ) (hm : 0 ≤ m) (ops : List HealthOp)
    (hops : ∀ op ∈ ops, 0 ≤ op.amount) :
    (0 ≤ (runHealthOps (HealthComponent.init m) ops).health
      ∧ (runHealthOps (HealthComponent.init m) ops).health
          ≤ (runHealthOps (HealthComponent.init m) ops).maxHealth)
    ∧ ∀ (c : HealthComponent) (a : ℚ), c.isDead = true → c.applyDamage a = c := by
  constructor
  · exact runHealthOps_invariant ops (HealthComponent.init m) hops
      (show (0 : ℚ) ≤ m from hm) (show m ≤ m from le_rfl)
  · intro c a h
    simp [HealthComponent.applyDamage, h]

/-- Witness for C8 at maxHealth 100 and a concrete call sequence. -/
theorem c8_witness :
    0 ≤ (runHealthOps (HealthComponent.init 100)
        [HealthOp.damage 30, HealthOp.heal 50, HealthOp.damage 200,
          HealthOp.damage 5]).health
    ∧ (runHealthOps (HealthComponent.init 100)
        [HealthOp.damage 30, HealthOp.heal 50, HealthOp.damage 200,
          HealthOp.damage 5]).health
      ≤ (runHealthOps (HealthComponent.init 100)
        [HealthOp.damage 30, HealthOp.heal 50, HealthOp.damage 200,
          HealthOp.damage 5]).maxHealth :=
  (c8_health_invariant 100 (by norm_num)
    [HealthOp.damage 30, HealthOp.heal 50, HealthOp.damage 200,
      HealthOp.damage 5] (by decide)).1

/-- collect on an already-collected coin returns it unchanged. -/
theorem collect_of_collected (c : Collectible) (h : c.collected = true) :
    c.collect = c := by
  simp [Collectible.collect, h]

/-- C10: Collectible.collect is idempotent — the first call sets the collected
flag and counts exactly one destroy call, and any number of further calls
changes nothing. -/
theorem c10_collect_idempotent :
    (∀ c : Collectible, c.collect.collect = c.collect)
    ∧ (∀ p : ℚ, (Collectible.init p).collect = ⟨p, true, 1⟩)
    ∧ ∀ (p : ℚ) (n : ℕ),
        Collectible.collect^[n + 1] (Collectible.init p) = ⟨p, true, 1⟩ := by
  have hidem : ∀ c : Collectible, c.collect.collect = c.collect := by
    intro c
    by_cases h : c.collected = true
    · rw [collect_of_collected c h, collect_of_collected c h]
    · have h1 : c.collect =
          { c with collected := true, destroyCalls := c.destroyCalls + 1 } := by
        simp [Collectible.collect, h]
      rw [h1]
      exact collect_of_collected _ rfl
  have hfirst : ∀ p : ℚ, (Collectible.init p).collect = ⟨p, true, 1⟩ := by
    intro p
    simp [Collectible.collect, Collectible.init]
  refine ⟨hidem, hfirst, ?_⟩
  intro p n
  induction n with
  | zero => simpa using hfirst p
  | succ k ih =>
    rw [Function.iterate_succ_apply', ih]
    exact collect_of_collected _ rfl

/-- C9: entering then exiting a ScaleZone restores an actor's root world scale
to exactly its pre-entry value; a second enter for an actor already recorded
changes neither the zone's map nor the world; an exit for an actor not in the
map changes nothing. -/
theorem c9_scale_zone_restores (z : ScaleZone) (w : ScaleWorld) (actor : Nat) :
    (∀ sc : Vec3, w actor = some sc → z.lookupScaled actor = none →
      ((z.onTriggerEnter w (some actor)).1.onTriggerExit
          (z.onTriggerEnter w (some actor)).2 (some actor)).2 actor = some sc)
    ∧ (z.lookupScaled actor ≠ none → z.onTriggerEnter w (some actor) = (z, w))
    ∧ (z.lookupScaled actor = none → z.onTriggerExit w (some actor) = (z, w)) := by
  refine ⟨?_, ?_, ?_⟩
  · intro sc hw hnone
    have hns : (z.lookupScaled actor).isSome = false := by
      rw [hnone]; rfl
    have h1 : z.onTriggerEnter w (some actor) =
        ({ z with scaledActors := (actor, sc) :: z.scaledActors },
         fun b => if b = actor then some (sc.scaleBy z.scaleFactor) else w b) := by
      simp [ScaleZone.onTriggerEnter, hns, hw]
    rw [h1]
    have h2 : ScaleZone.lookupScaled
        { z with scaledActors := (actor, sc) :: z.scaledActors } actor
          = some sc := by
      simp [ScaleZone.lookupScaled]
    simp [ScaleZone.onTriggerExit, h2]
  · intro hsome
    have hs : (z.lookupScaled actor).isSome = true := by
      cases h : z.lookupScaled actor with
      | none => exact absurd h hsome
      | some v => rfl
    simp [ScaleZone.onTriggerEnter, hs]
  · intro hnone
    simp [ScaleZone.onTriggerExit, hnone]

/-- Witness for C9: a fresh zone with factor 3/2 and an actor with root scale
(1, 1, 1) gets that exact scale back after enter then exit. -/
theorem c9_witness :
    ((ScaleZone.onTriggerEnter ⟨3/2, []⟩
        (fun a => if a = 1 then some (⟨1, 1, 1⟩ : Vec3) else none) (some 1)).1.onTriggerExit
      (ScaleZone.onTriggerEnter ⟨3/2, []⟩
        (fun a => if a = 1 then some (⟨1, 1, 1⟩ : Vec3) else none) (some 1)).2
      (some 1)).2 1 = some ⟨1, 1, 1⟩ :=
  (c9_scale_zone_restores ⟨3/2, []⟩
    (fun a => if a = 1 then some (⟨1, 1, 1⟩ : Vec3) else none) 1).1
    ⟨1, 1, 1⟩ rfl rfl

/-- A held button source inside one of an action's bindings makes the
action's aggregate value true. -/
theorem buttonValue_of_source (a : InputAction) (b : Binding) (src : DeviceSource)
    (s : Snapshot) (hb : b ∈ a.bindings) (hsrc : src ∈ b.buttonSources)
    (hdown : s.sourceDown src = true) : a.buttonValue s = true := by
  unfold InputAction.buttonValue
  rw [List.any_eq_true]
  refine ⟨b, hb, ?_⟩
  unfold resolveBindingButton
  rw [List.any_eq_true]
  exact ⟨src, hsrc, hdown⟩

/-- C1: over a run of frames in which some bound source of a button action is
held, with the action's aggregate false on the frame before the run, the
press edge is true exactly on the first frame and false on every later frame
of the run, the aggregate value is true throughout, and at the facade the
Jump query of the OnFoot context computes exactly this action-level edge
against the previous-frame aggregate. -/
theorem c1_button_edge (a : InputAction) (prev : Snapshot) (frames : List Snapshot)
    (hprev : a.buttonValue prev = false)
    (hheld : ∀ s ∈ frames, ∃ b ∈ a.bindings, ∃ src ∈ b.buttonSources,
      s.sourceDown src = true) :
    (∀ h : 0 < frames.length, a.wasPressed (frames.get ⟨0, h⟩) prev = true)
    ∧ (∀ (i : ℕ) (h1 : i < frames.length) (h2 : i + 1 < frames.length),
        a.wasPressed (frames.get ⟨i + 1, h2⟩) (frames.get ⟨i, h1⟩) = false)
    ∧ (∀ s ∈ frames, a.buttonValue s = true)
    ∧ (∀ cur prev2 : Snapshot,
        wasButtonPressed ⟨[createOnFootContext], cur, prev2⟩ "Jump"
          = jumpAction.wasPressed cur prev2) := by
  have hval : ∀ s ∈ frames, a.buttonValue s = true := by
    intro s hs
    obtain ⟨b, hb, src, hsrc, hdown⟩ := hheld s hs
    exact buttonValue_of_source a b src s hb hsrc hdown
  refine ⟨?_, ?_, hval, ?_⟩
  · intro h
    have h0 := hval _ (List.get_mem frames 0 h)
    simp only [List.get_eq_getElem] at h0
    simp [InputAction.wasPressed, h0, hprev]
  · intro i h1 h2
    have hv1 := hval _ (List.get_mem frames i h1)
    have hv2 := hval _ (List.get_mem frames (i + 1) h2)
    simp only [List.get_eq_getElem] at hv1 hv2
    simp [InputAction.wasPressed, hv1, hv2]
  · intro cur prev2
    rfl

/-- Witness for C1: Jump held via Space for two frames, with the gamepad A
button newly pressed on the second frame — a fresh edge on frame one, no
second edge while the aggregate stays true despite the overlapping source. -/
theorem c1_witness :
    jumpAction.wasPressed snapSpace snapNone = true
    ∧ jumpAction.wasPressed snapSpaceAndPadA snapSpace = false
    ∧ jumpAction.buttonValue snapSpaceAndPadA = true := by
  have h := c1_button_edge jumpAction snapNone [snapSpace, snapSpaceAndPadA]
    (by decide) (by decide)
  exact ⟨h.1 (by decide), h.2.1 0 (by decide) (by decide),
    h.2.2.1 snapSpaceAndPadA (List.mem_cons_of_mem _ (List.mem_cons_self _ _))⟩

/-- Magnitude of a scaled vector. -/
theorem Vec2.mag_scale (c : ℝ) (v : Vec2) : (Vec2.scale c v).mag = |c| * v.mag := by
  show Real.sqrt ((c * v.x) ^ 2 + (c * v.y) ^ 2)
      = |c| * Real.sqrt (v.x ^ 2 + v.y ^ 2)
  rw [show (c * v.x) ^ 2 + (c * v.y) ^ 2 = c ^ 2 * (v.x ^ 2 + v.y ^ 2) by ring,
    Real.sqrt_mul (sq_nonneg c), Real.sqrt_sq_eq_abs]

/-- invertY preserves magnitude. -/
theorem mag_applyInvertY (b : Bool) (v : Vec2) : (applyInvertY b v).mag = v.mag := by
  cases b with
  | false => rfl
  | true =>
    show Real.sqrt (v.x ^ 2 + (-v.y) ^ 2) = Real.sqrt (v.x ^ 2 + v.y ^ 2)
    congr 1
    ring

/-- Scaling the zero vector gives the zero vector. -/
theorem scale_zero_vec (c : ℝ) : Vec2.scale c Vec2.zero = Vec2.zero := by
  show (⟨c * 0, c * 0⟩ : Vec2) = ⟨0, 0⟩
  rw [mul_zero]

/-- Scaling by zero gives the zero vector. -/
theorem scale_zero_coeff (v : Vec2) : Vec2.scale 0 v = Vec2.zero := by
  show (⟨0 * v.x, 0 * v.y⟩ : Vec2) = ⟨0, 0⟩
  rw [zero_mul, zero_mul]

/-- Scaling by one is the identity. -/
theorem scale_one (v : Vec2) : Vec2.scale 1 v = v := by
  show (⟨1 * v.x, 1 * v.y⟩ : Vec2) = v
  rw [one_mul, one_mul]

/-- invertY maps the zero vector to itself. -/
theorem invertY_zero (b : Bool) : applyInvertY b Vec2.zero = Vec2.zero := by
  cases b with
  | false => rfl
  | true =>
    show (⟨0, -0⟩ : Vec2) = ⟨0, 0⟩
    rw [neg_zero]

/-- The raw WASD vector with exactly KeyD and KeyW held is (1, 1). -/
theorem rawDiscrete_wasd_snapDW :
    rawDiscrete (.keyboard "KeyD") (.keyboard "KeyA") (.keyboard "KeyW")
      (.keyboard "KeyS") snapDW = ⟨1, 1⟩ := by
  have hD : snapDW.sourceDown (.keyboard "KeyD") = true := by decide
  have hA : snapDW.sourceDown (.keyboard "KeyA") = false := by decide
  have hW : snapDW.sourceDown (.keyboard "KeyW") = true := by decide
  have hS : snapDW.sourceDown (.keyboard "KeyS") = false := by decide
  unfold rawDiscrete
  rw [hD, hA, hW, hS]
  show (⟨(1 : ℝ) - 0, (1 : ℝ) - 0⟩ : Vec2) = ⟨1, 1⟩
  rw [sub_zero]

/-- The magnitude of (1, 1) is the square root of two. -/
theorem mag_one_one : (⟨1, 1⟩ : Vec2).mag = Real.sqrt 2 := by
  show Real.sqrt ((1 : ℝ) ^ 2 + 1 ^ 2) = Real.sqrt 2
  norm_num

/-- C2: the discrete axis2d resolver forms the raw vector from the signed
difference of the paired sources, each component being -1, 0 or 1; with
normalize2D set it divides by the raw magnitude whenever that is positive;
and on the WASD binding with exactly KeyD and KeyW held it yields the unit
vector (1/sqrt 2, 1/sqrt 2) of magnitude 1. -/
theorem c2_discrete_normalize :
    (∀ (xp xn yp yn : DeviceSource) (s : Snapshot),
      ((rawDiscrete xp xn yp yn s).x = -1 ∨ (rawDiscrete xp xn yp yn s).x = 0
        ∨ (rawDiscrete xp xn yp yn s).x = 1)
      ∧ ((rawDiscrete xp xn yp yn s).y = -1 ∨ (rawDiscrete xp xn yp yn s).y = 0
        ∨ (rawDiscrete xp xn yp yn s).y = 1))
    ∧ (∀ (xp xn yp yn : DeviceSource) (m : Modifiers) (s : Snapshot),
        m.normalize2D = true → 0 < (rawDiscrete xp xn yp yn s).mag →
        resolveDiscreteAxis2d xp xn yp yn m s
          = Vec2.scale (1 / (rawDiscrete xp xn yp yn s).mag)
              (rawDiscrete xp xn yp yn s))
    ∧ resolveBindingAxis2d wasdBinding snapDW
        = ⟨1 / Real.sqrt 2, 1 / Real.sqrt 2⟩
    ∧ (resolveBindingAxis2d wasdBinding snapDW).mag = 1 := by
  have hcomp : ∀ p q : Bool, boolToReal p - boolToReal q = -1
      ∨ boolToReal p - boolToReal q = 0 ∨ boolToReal p - boolToReal q = 1 := by
    intro p q
    cases p <;> cases q <;> simp [boolToReal]
  have hgen : ∀ (xp xn yp yn : DeviceSource) (m : Modifiers) (s : Snapshot),
      m.normalize2D = true → 0 < (rawDiscrete xp xn yp yn s).mag →
      resolveDiscreteAxis2d xp xn yp yn m s
        = Vec2.scale (1 / (rawDiscrete xp xn yp yn s).mag)
            (rawDiscrete xp xn yp yn s) := by
    intro xp xn yp yn m s hm hpos
    simp only [resolveDiscreteAxis2d]
    rw [if_pos ⟨hm, hpos⟩]
  have hsqrt2 : (0 : ℝ) < Real.sqrt 2 := Real.sqrt_pos.mpr (by norm_num)
  have hconc : resolveBindingAxis2d wasdBinding snapDW
      = Vec2.scale (1 / Real.sqrt 2) ⟨1, 1⟩ := by
    show resolveDiscreteAxis2d (.keyboard "KeyD") (.keyboard "KeyA")
        (.keyboard "KeyW") (.keyboard "KeyS") { normalize2D := true } snapDW = _
    rw [hgen _ _ _ _ _ _ rfl
      (by rw [rawDiscrete_wasd_snapDW, mag_one_one]; exact hsqrt2)]
    rw [rawDiscrete_wasd_snapDW, mag_one_one]
  refine ⟨fun xp xn yp yn s => ⟨hcomp _ _, hcomp _ _⟩, hgen, ?_, ?_⟩
  · rw [hconc]
    show (⟨1 / Real.sqrt 2 * 1, 1 / Real.sqrt 2 * 1⟩ : Vec2) = _
    rw [mul_one]
  · rw [hconc, Vec2.mag_scale, mag_one_one,
      abs_of_nonneg (by positivity : (0 : ℝ) ≤ 1 / Real.sqrt 2), one_div,
      inv_mul_cancel₀ (ne_of_gt hsqrt2)]

/-- Witness for C2: the WASD binding at the KeyD+KeyW frame resolves to the
raw vector divided by its own magnitude. -/
theorem c2_witness :
    resolveDiscreteAxis2d (.keyboard "KeyD") (.keyboard "KeyA")
      (.keyboard "KeyW") (.keyboard "KeyS") { normalize2D := true } snapDW
    = Vec2.scale
        (1 / (rawDiscrete (.keyboard "KeyD") (.keyboard "KeyA")
          (.keyboard "KeyW") (.keyboard "KeyS") snapDW).mag)
        (rawDiscrete (.keyboard "KeyD") (.keyboard "KeyA")
          (.keyboard "KeyW") (.keyboard "KeyS") snapDW) :=
  c2_discrete_normalize.2.1 _ _ _ _ _ _ rfl
    (by rw [rawDiscrete_wasd_snapDW, mag_one_one]
        exact Real.sqrt_pos.mpr (by norm_num))

/-- C3: the analog axis2d resolver with deadzone in [0, 1) and non-negative
sensitivity maps any input of magnitude strictly below the deadzone, and any
input of magnitude exactly the deadzone, to the zero vector, and maps any
input of magnitude 1 to a vector of magnitude equal to the sensitivity. -/
theorem c3_radial_deadzone (m : Modifiers) (sx sy : DeviceSource) (s : Snapshot)
    (h0 : 0 ≤ m.deadzone) (h1 : m.deadzone < 1) (hs : 0 ≤ m.sensitivity) :
    ((rawAnalog sx sy s).mag < m.deadzone →
      resolveAnalogAxis2d sx sy m s = Vec2.zero)
    ∧ ((rawAnalog sx sy s).mag = m.deadzone →
      resolveAnalogAxis2d sx sy m s = Vec2.zero)
    ∧ ((rawAnalog sx sy s).mag = 1 →
      (resolveAnalogAxis2d sx sy m s).mag = m.sensitivity) := by
  refine ⟨?_, ?_, ?_⟩
  · intro hlt
    unfold resolveAnalogAxis2d applyDeadzone
    rw [if_pos hlt, scale_zero_vec, invertY_zero]
  · intro heq
    unfold resolveAnalogAxis2d applyDeadzone
    rw [if_neg (by rw [heq]; exact lt_irrefl _), heq, sub_self, zero_div,
      zero_div, scale_zero_coeff, scale_zero_vec, invertY_zero]
  · intro hone
    unfold resolveAnalogAxis2d applyDeadzone
    rw [if_neg (by rw [hone]; exact not_lt.mpr (le_of_lt h1)), hone,
      show ((1 - m.deadzone) / (1 - m.deadzone)) / (1 : ℝ) = 1 by
        rw [div_one,
          div_self (ne_of_gt (by linarith : (0 : ℝ) < 1 - m.deadzone))],
      scale_one, mag_applyInvertY, Vec2.mag_scale, hone, mul_one,
      abs_of_nonneg hs]

/-- Witness for C3: the gamepad right stick at (0.15, 0) — magnitude exactly
the deadzone of the Look binding's modifiers — resolves to the zero vector. -/
theorem c3_witness :
    resolveAnalogAxis2d (.gamepadAxis 2) (.gamepadAxis 3)
      { deadzone := 0.15, sensitivity := 0.1 } snapStick = Vec2.zero := by
  have hmag : (rawAnalog (.gamepadAxis 2) (.gamepadAxis 3) snapStick).mag
      = (0.15 : ℝ) := by
    show Real.sqrt ((0.15 : ℝ) ^ 2 + (0 : ℝ) ^ 2) = 0.15
    rw [show (0.15 : ℝ) ^ 2 + (0 : ℝ) ^ 2 = 0.15 ^ 2 by norm_num]
    exact Real.sqrt_sq (by norm_num)
  exact (c3_radial_deadzone { deadzone := 0.15, sensitivity := 0.1 }
    (.gamepadAxis 2) (.gamepadAxis 3) snapStick
    (by show (0 : ℝ) ≤ 0.15; norm_num)
    (by show (0.15 : ℝ) < 1; norm_num)
    (by show (0 : ℝ) ≤ 0.1; norm_num)).2.1 hmag

/-- Every context is in the sorted stack exactly when it is enabled. -/
theorem mem_sortStack (x : InputContext) (l : List InputContext) :
    x ∈ sortStack l ↔ x ∈ l := by
  have key : ∀ (l acc : List InputContext),
      (x ∈ l.foldl (fun acc c => List.orderedInsert ctxGE c acc) acc
        ↔ x ∈ acc ∨ x ∈ l) := by
    intro l
    induction l with
    | nil => intro acc; simp
    | cons c rest ih =>
      intro acc
      rw [List.foldl_cons, ih, List.mem_orderedInsert, List.mem_cons]
      tauto
  rw [sortStack, key]
  simp

/-- The sorted stack is ordered by descending priority. -/
theorem sortStack_sorted (l : List InputContext) :
    List.Sorted ctxGE (sortStack l) := by
  have key : ∀ (l acc : List InputContext), List.Sorted ctxGE acc →
      List.Sorted ctxGE (l.foldl (fun acc c => List.orderedInsert ctxGE c acc) acc) := by
    intro l
    induction l with
    | nil => exact fun acc h => h
    | cons c rest ih =>
      intro acc h
      rw [List.foldl_cons]
      exact ih _ (h.orderedInsert c acc)
  exact key l [] List.sorted_nil

/-- Only contexts of the stack itself can resolve. -/
theorem resolvedContexts_subset (L : List InputContext) :
    ∀ x ∈ resolvedContexts L, x ∈ L := by
  induction L with
  | nil => intro x hx; simp only [resolvedContexts] at hx; cases hx
  | cons c rest ih =>
    intro x hx
    simp only [resolvedContexts] at hx
    by_cases h : c.consumeInput = true
    · rw [if_pos h] at hx
      rcases List.mem_singleton.mp hx with h1
      simp [h1]
    · rw [if_neg h] at hx
      rcases List.mem_cons.mp hx with h1 | h1
      · simp [h1]
      · exact List.mem_cons_of_mem _ (ih x h1)

/-- In a stack sorted by descending priority, every context that resolves has
priority at least that of any enabled consuming context. -/
theorem resolved_priority_ge :
    ∀ L : List InputContext, List.Sorted ctxGE L →
      ∀ c ∈ L, c.consumeInput = true →
      ∀ x ∈ resolvedContexts L, c.priority ≤ x.priority := by
  intro L
  induction L with
  | nil => intro _ c hc; cases hc
  | cons y rest ih =>
    intro hs c hc hcons x hx
    rw [List.sorted_cons] at hs
    obtain ⟨hy, hrest⟩ := hs
    simp only [resolvedContexts] at hx
    by_cases hcy : y.consumeInput = true
    · rw [if_pos hcy] at hx
      rcases List.mem_singleton.mp hx with h1
      subst h1
      rcases List.mem_cons.mp hc with h2 | h2
      · subst h2; exact le_rfl
      · exact hy c h2
    · rw [if_neg hcy] at hx
      have hc' : c ∈ rest := by
        rcases List.mem_cons.mp hc with h2 | h2
        · subst h2; exact absurd hcons hcy
        · exact h2
      rcases List.mem_cons.mp hx with h1 | h1
      · subst h1; exact hy c hc'
      · exact ih hrest c hc' hcons x h1

/-- If no resolved context defines the queried name, the facade lookup is
empty. -/
theorem lookupAction_eq_none (sys : InputSystemState) (name : String)
    (h : ∀ e ∈ resolvedContexts (sortStack sys.enabled), ∀ a ∈ e.actions,
      a.name ≠ name) : lookupAction sys name = none := by
  rw [lookupAction, List.findSome?_eq_none_iff]
  intro e he
  rw [List.find?_eq_none]
  intro a ha
  simp [h e he a ha]

/-- An empty facade lookup yields the neutral defaults on every query. -/
theorem facade_neutral (sys : InputSystemState) (name : String)
    (h : lookupAction sys name = none) :
    getButton sys name = false
    ∧ wasButtonPressed sys name = false
    ∧ wasButtonReleased sys name = false
    ∧ getAxis2D sys name = Vec2.zero := by
  refine ⟨?_, ?_, ?_, ?_⟩ <;>
    simp [getButton, wasButtonPressed, wasButtonReleased, getAxis2D, h]

/-- C4: while a consuming context is enabled, no context of strictly lower
priority resolves at all, and any action of such a lower context whose name no
resolved context defines reports neutral defaults at the facade, whatever the
device snapshots hold. -/
theorem c4_context_consumption (sys : InputSystemState) (c d : InputContext)
    (hc : c ∈ sys.enabled) (hcons : c.consumeInput = true)
    (hd : d ∈ sys.enabled) (hlt : d.priority < c.priority) :
    d ∉ resolvedContexts (sortStack sys.enabled)
    ∧ ∀ a ∈ d.actions,
        (∀ e ∈ resolvedContexts (sortStack sys.enabled), ∀ b ∈ e.actions,
          b.name ≠ a.name) →
        getButton sys a.name = false
        ∧ wasButtonPressed sys a.name = false
        ∧ wasButtonReleased sys a.name = false
        ∧ getAxis2D sys a.name = Vec2.zero := by
  have hcs : c ∈ sortStack sys.enabled := (mem_sortStack c sys.enabled).mpr hc
  constructor
  · intro hmem
    have := resolved_priority_ge (sortStack sys.enabled)
      (sortStack_sorted sys.enabled) c hcs hcons d hmem
    omega
  · intro a _ hnone
    exact facade_neutral sys a.name (lookupAction_eq_none sys a.name hnone)

/-- Witness for C4: with the consuming OnFoot context (priority 0) and a lower
Inventory context (priority -10) both enabled and the lower context's KeyB
binding held, the lower context does not resolve and its OpenBag action reads
neutral false. -/
theorem c4_witness :
    getButton ⟨[lowInventoryContext, createOnFootContext], snapKeyB, snapKeyB⟩
        "OpenBag" = false
    ∧ lowInventoryContext ∉ resolvedContexts
        (sortStack [lowInventoryContext, createOnFootContext]) := by
  have h := c4_context_consumption
    ⟨[lowInventoryContext, createOnFootContext], snapKeyB, snapKeyB⟩
    createOnFootContext lowInventoryContext
    (List.mem_cons_of_mem _ (List.mem_cons_self _ _)) rfl
    (List.mem_cons_self _ _) (by decide)
  refine ⟨?_, h.1⟩
  exact (h.2 openBagAction (List.mem_cons_self _ _) (by decide)).1

/-- C6: a name defined by no enabled context reads as the neutral default on
every facade method — false for the button queries and the zero vector for
the axis query — with no failure. -/
theorem c6_unknown_name_neutral (sys : InputSystemState) (name : String)
    (h : ∀ c ∈ sys.enabled, ∀ a ∈ c.actions, a.name ≠ name) :
    getButton sys name = false
    ∧ wasButtonPressed sys name = false
    ∧ wasButtonReleased sys name = false
    ∧ getAxis2D sys name = Vec2.zero := by
  apply facade_neutral
  apply lookupAction_eq_none
  intro e he
  exact h e ((mem_sortStack e sys.enabled).mp (resolvedContexts_subset _ e he))

/-- Witness for C6: after enabling the OnFoot context and then disabling it by
name, the Jump queries read neutral false even with Space held. -/
theorem c6_witness :
    wasButtonPressed (disableContext
        (enableContext ⟨[], snapSpace, snapNone⟩ createOnFootContext) "OnFoot")
        "Jump" = false
    ∧ getButton (disableContext
        (enableContext ⟨[], snapSpace, snapNone⟩ createOnFootContext) "OnFoot")
        "Jump" = false := by
  have h := c6_unknown_name_neutral (disableContext
    (enableContext ⟨[], snapSpace, snapNone⟩ createOnFootContext) "OnFoot")
    "Jump" (by decide)
  exact ⟨h.2.1, h.1⟩

/-- C5: getMouseDelta returns the snapshot's raw pixel delta with no shaping,
and the controller's look intent is that delta scaled componentwise by the
controller's own mouse sensitivity of 0.002 exactly when CameraRotate is held
and the delta is non-zero, and the Look gamepad axis value unchanged
otherwise. -/
theorem c5_raw_mouse_look (sys : InputSystemState) :
    getMouseDelta sys = sys.cur.mouseDelta
    ∧ (getButton sys "CameraRotate" = true →
        (sys.cur.mouseDelta.x ≠ 0 ∨ sys.cur.mouseDelta.y ≠ 0) →
        (TestPlayerController.update sys).look
          = ⟨sys.cur.mouseDelta.x * mouseSensitivity,
             sys.cur.mouseDelta.y * mouseSensitivity⟩)
    ∧ (¬(getButton sys "CameraRotate" = true
          ∧ (sys.cur.mouseDelta.x ≠ 0 ∨ sys.cur.mouseDelta.y ≠ 0)) →
        (TestPlayerController.update sys).look = getAxis2D sys "Look") := by
  refine ⟨rfl, ?_, ?_⟩
  · intro hheld hnz
    show (if getButton sys "CameraRotate" = true
          ∧ ((getMouseDelta sys).x ≠ 0 ∨ (getMouseDelta sys).y ≠ 0) then
        (⟨(getMouseDelta sys).x * mouseSensitivity,
          (getMouseDelta sys).y * mouseSensitivity⟩ : Vec2)
      else getAxis2D sys "Look") = _
    rw [if_pos ⟨hheld, hnz⟩]
    rfl
  · intro hn
    show (if getButton sys "CameraRotate" = true
          ∧ ((getMouseDelta sys).x ≠ 0 ∨ (getMouseDelta sys).y ≠ 0) then
        (⟨(getMouseDelta sys).x * mouseSensitivity,
          (getMouseDelta sys).y * mouseSensitivity⟩ : Vec2)
      else getAxis2D sys "Look") = _
    rw [if_neg (show ¬(getButton sys "CameraRotate" = true
      ∧ ((getMouseDelta sys).x ≠ 0 ∨ (getMouseDelta sys).y ≠ 0)) from hn)]

/-- Witness for C5: with the OnFoot context enabled, the right mouse button
held and a raw delta of (10, 5), the controller's look intent is exactly
(10, 5) scaled by the mouse sensitivity. -/
theorem c5_witness :
    (TestPlayerController.update
        ⟨[createOnFootContext], snapMouse, snapNone⟩).look
      = ⟨10 * mouseSensitivity, 5 * mouseSensitivity⟩ :=
  (c5_raw_mouse_look ⟨[createOnFootContext], snapMouse, snapNone⟩).2.1
    (by decide) (Or.inl (show (10 : ℝ) ≠ 0 by norm_num))

end TestGame
